import Mathlib

/-
  Verification of the connection-lifecycle core of the Nordix/networkservicemesh
  OVS forwarder.  Shallow embedding: the bookkeeping state of each component
  (tunnel reference counts, device pools, allocation records, the VF name
  registry, the port-binding cache) is made explicit, external collaborators
  (netlink, sriovnet, ovs-vsctl) are parameters or oracle functions, and the
  control flow of each Go function is translated clause by clause.
-/

namespace NsmOvs

/- ---------------------------------------------------------------------------
   Generic helpers: Go map and Go string primitives used by the sources.
   Association lists model Go maps (whose reachable states have no duplicate
   keys); aerase removes every binding of the key so that its specification
   agrees with Go delete on those states.
--------------------------------------------------------------------------- -/

/-- Association-list lookup, modelling a Go map read with its ok flag. -/
def alookup {β : Type} : List (String × β) → String → Option β
  | [], _ => none
  | p :: m, k => if p.1 = k then some p.2 else alookup m k

/-- Association-list update, modelling Go map assignment: replace the binding
if the key is present, otherwise append a new binding. -/
def ainsert {β : Type} : List (String × β) → String → β → List (String × β)
  | [], k, v => [(k, v)]
  | p :: m, k, v => if p.1 = k then (k, v) :: m else p :: ainsert m k v

/-- Association-list removal, modelling Go map delete. -/
def aerase {β : Type} : List (String × β) → String → List (String × β)
  | [], _ => []
  | p :: m, k => if p.1 = k then aerase m k else p :: aerase m k

/-- Key list of an association list. -/
def akeys {β : Type} (m : List (String × β)) : List String :=
  m.map (fun p => p.1)

/-- Go-map read of an integer-valued map: a missing key reads as zero. -/
def goGet (m : String → Option Nat) (k : String) : Nat :=
  (m k).getD 0

/-- One step of literal pattern matching: if the pattern is a leading piece of
the character list, return the remainder. -/
def matchPat : List Char → List Char → Option (List Char)
  | [], s => some s
  | _ :: _, [] => none
  | p :: ps, c :: cs => if p = c then matchPat ps cs else none

/-- Fuelled replace-all on character lists; the fuel is the input length, which
suffices for the non-empty patterns the sources use. -/
def replaceFuel (p r : List Char) : Nat → List Char → List Char
  | 0, s => s
  | _ + 1, [] => []
  | n + 1, c :: cs =>
    match matchPat p (c :: cs) with
    | some rest => r ++ replaceFuel p r n rest
    | none => c :: replaceFuel p r n cs

/-- Go strings.ReplaceAll: replace every non-overlapping occurrence, scanning
left to right. -/
def replaceAllGo (s pat rep : String) : String :=
  String.mk (replaceFuel pat.data rep.data s.data.length s.data)

/-- Helper splitting a character list at commas, accumulating the current field
in reverse. -/
def splitCommaAux : List Char → List Char → List String
  | [], acc => [String.mk acc.reverse]
  | c :: cs, acc =>
    if c = ',' then String.mk acc.reverse :: splitCommaAux cs []
    else splitCommaAux cs (c :: acc)

/-- Go strings.Split with separator a comma; the empty string yields one empty
field, as in Go. -/
def splitComma (s : String) : List String :=
  splitCommaAux s.data []

/-- Decimal-digit accumulator of the Atoi model; a non-digit character makes
the parse fail. -/
def atoiDigits : List Char → Nat → Option Nat
  | [], acc => some acc
  | c :: cs, acc =>
    if c.isDigit then atoiDigits cs (acc * 10 + (c.toNat - 48)) else none

/-- Go strconv.Atoi as used on ovs-vsctl port-number output: an optional sign
followed by decimal digits gives the parsed value, and anything else gives 0,
the Go zero value returned alongside the error. -/
def atoiGo (s : String) : Int :=
  match s.data with
  | [] => 0
  | '-' :: rest =>
    (match atoiDigits rest 0 with
     | some n => -(n : Int)
     | none => 0)
  | '+' :: rest =>
    (match atoiDigits rest 0 with
     | some n => (n : Int)
     | none => 0)
  | l =>
    (match atoiDigits l 0 with
     | some n => (n : Int)
     | none => 0)

/- ---------------------------------------------------------------------------
   Tunnel registry (remote/remote.go, remote/vxlan.go).
   State: the vxlanInterfaces reference-count map guarded by the registry
   mutex, the shared PortMap binding cache, and the set of ports currently on
   the OVS bridge.  The switch-control primitives newVXLAN and deleteVXLAN
   are modelled on their success path; their only failure mode is a transport
   failure of the external ovs-vsctl call, which createVXLANInterface and
   deleteVXLANInterface propagate without touching the registry.
--------------------------------------------------------------------------- -/

/-- State of the remote tunnel registry: the reference-count map
vxlanInterfaces, the PortMap binding cache, and which tunnel ports are
attached to the OVS bridge. -/
structure TunState where
  vxlanInterfaces : String → Option Nat
  portMap : String → Option Int
  switchPorts : String → Bool

/-- newVXLAN, vxlan.go: add-port with may-exist semantics on the bridge. -/
def newVXLAN (s : TunState) (k : String) : TunState :=
  { s with switchPorts := fun x => if x = k then true else s.switchPorts x }

/-- deleteVXLAN, vxlan.go: del-port on the bridge. -/
def deleteVXLAN (s : TunState) (k : String) : TunState :=
  { s with switchPorts := fun x => if x = k then false else s.switchPorts x }

/-- Tunnel port name derivation of createVXLANInterface and
getVXLANParameters: the letter v followed by the remote IP with the dots
removed. -/
def ovsTunnelNameOf (remoteIP : String) : String :=
  "v" ++ replaceAllGo remoteIP "." ""

/-- createVXLANInterface, vxlan.go lines 34-59, under the registry mutex: if
no map entry exists for the tunnel name, create the bridge port; then
increment the entry.  The flag records whether newVXLAN ran on this call. -/
def createVXLANInterface (s : TunState) (k : String) : TunState × Bool :=
  let present := (s.vxlanInterfaces k).isSome
  let s1 := if present then s else newVXLAN s k
  let n := goGet s1.vxlanInterfaces k + 1
  ({ s1 with vxlanInterfaces := fun x => if x = k then some n else s1.vxlanInterfaces x },
   !present)

/-- deleteVXLANInterface, vxlan.go lines 77-93, under the registry mutex: a
count of exactly one deletes the bridge port, the PortMap binding and the
registry entry; a non-zero count decrements; an absent key is a no-op.  The
flag records whether deleteVXLAN ran on this call. -/
def deleteVXLANInterface (s : TunState) (k : String) : TunState × Bool :=
  if goGet s.vxlanInterfaces k = 1 then
    ({ vxlanInterfaces := fun x => if x = k then none else s.vxlanInterfaces x
       portMap := fun x => if x = k then none else s.portMap x
       switchPorts := (deleteVXLAN s k).switchPorts }, true)
  else if goGet s.vxlanInterfaces k ≠ 0 then
    ({ s with vxlanInterfaces :=
        fun x => if x = k then some (goGet s.vxlanInterfaces k - 1) else s.vxlanInterfaces x },
     false)
  else (s, false)

/-- Iterated tunnel Acquire for one key, returning the final state and how
many of the calls invoked newVXLAN. -/
def acquireN (k : String) : Nat → TunState → TunState × Nat
  | 0, s => (s, 0)
  | n + 1, s =>
    let fst := createVXLANInterface s k
    let rest := acquireN k n fst.1
    (rest.1, (if fst.2 then 1 else 0) + rest.2)

/-- Iterated tunnel Release for one key, returning the final state and how
many of the calls invoked deleteVXLAN. -/
def releaseN (k : String) : Nat → TunState → TunState × Nat
  | 0, s => (s, 0)
  | n + 1, s =>
    let fst := deleteVXLANInterface s k
    let rest := releaseN k n fst.1
    (rest.1, (if fst.2 then 1 else 0) + rest.2)

/-- Empty tunnel registry over an empty bridge, the state at forwarder
startup. -/
def tunState0 : TunState :=
  { vxlanInterfaces := fun _ => none
    portMap := fun _ => none
    switchPorts := fun _ => false }

/- ---------------------------------------------------------------------------
   Device and representor picking (common.go, ovsutils/ovsutils.go).
   External calls are parameters: getNetRep stands for
   sriov.GetNetRepresentor, and the ovs-vsctl listing of interface names is
   passed as its raw stdout (or its error).
--------------------------------------------------------------------------- -/

/-- Parsing done by CheckNetRepOvs on the stdout of ovs-vsctl --columns=name
list Interface: strip the literal name, colons, double quotes and spaces, turn
record separators (blank lines) into commas, and split on commas. -/
def parseOvsPorts (out : String) : List String :=
  let s1 := replaceAllGo (replaceAllGo (replaceAllGo (replaceAllGo out "name" "") ":" "") "\"" "") " " ""
  splitComma (replaceAllGo s1 "\n\n" ",")

/-- CheckNetRepOvs, ovsutils.go lines 112-128: a representor name is available
exactly when it does not occur among the interface names attached to the
switch; a failure of the switch query is propagated. -/
def CheckNetRepOvs (netRep : String) (listIfaceOut : Except String String) : Except String Bool :=
  match listIfaceOut with
  | Except.error e => Except.error e
  | Except.ok out =>
    if netRep ∈ parseOvsPorts out then Except.ok false else Except.ok true

/-- CheckNetRepAvailability, common.go lines 323-330: propagate the result of
CheckNetRepOvs unchanged. -/
def CheckNetRepAvailability (netRep : String) (listIfaceOut : Except String String) :
    Except String Bool :=
  match CheckNetRepOvs netRep listIfaceOut with
  | Except.error e => Except.error e
  | Except.ok b => Except.ok b

/-- Error text of the failure branch of PickDeviceAndNetRep. -/
def noNetRepMsg : String := "local: Could not find available Net Rep"

/-- Loop body of PickDeviceAndNetRep, common.go lines 332-352, with the
availNetRep accumulator threaded exactly as in the source.  The value none
stands for the textual fall-through after the loop when availNetRep is true,
a path on which the Go function returns no value. -/
def pickLoop (getNetRep : String → Except String String)
    (listIfaceOut : Except String String) :
    List String → Bool → Option (Except String (String × String))
  | [], avail =>
    if avail = false then some (Except.error noNetRepMsg) else none
  | d :: rest, _avail =>
    match getNetRep d with
    | Except.error e => some (Except.error e)
    | Except.ok rep =>
      match CheckNetRepAvailability rep listIfaceOut with
      | Except.error e => some (Except.error e)
      | Except.ok avail1 =>
        if avail1 then some (Except.ok (d, rep)) else pickLoop getNetRep listIfaceOut rest avail1

/-- PickDeviceAndNetRep, common.go lines 332-352: split the comma-separated
candidate list and scan it with availNetRep initially false. -/
def PickDeviceAndNetRep (getNetRep : String → Except String String)
    (listIfaceOut : Except String String) (deviceIDs : String) :
    Option (Except String (String × String)) :=
  pickLoop getNetRep listIfaceOut (splitComma deviceIDs) false

/-- Allocation contract written from the specification text, for comparison
with PickDeviceAndNetRep: scan the candidates in order and return the first
whose representor resolves and is not attached to the switch. -/
def allocateSpec (getNetRep : String → Except String String) (attached : List String) :
    List String → Option (String × String)
  | [] => none
  | d :: rest =>
    match getNetRep d with
    | Except.ok rep =>
      if rep ∈ attached then allocateSpec getNetRep attached rest else some (d, rep)
    | Except.error _ => allocateSpec getNetRep attached rest

/-- Effect on the set of attached interface names of the may-exist add-port
call that attaches a picked representor (SetupLocalOvSConnection). -/
def addPortName (ports : List String) (p : String) : List String :=
  if p ∈ ports then ports else ports ++ [p]

/-- Sample representor oracle: the two candidate devices of the specification
scenario resolve, everything else fails as sriovnet would. -/
def netRepOracle0 : String → Except String String :=
  fun d =>
    if d = "0000:01:00.1" then Except.ok "rep1"
    else if d = "0000:01:00.2" then Except.ok "rep2"
    else Except.error "failed to get one netdevice interface"

/-- Sample ovs-vsctl listing in which rep1 is attached to the bridge and rep2
is not. -/
def listIfaceOut0 : String :=
  "name                : \"rep1\"\n\nname                : \"v10005\""

/- ---------------------------------------------------------------------------
   Endpoint device pool (sdk endpoint connection composite,
   src/unnamed/part_000).  The pciAddresses map is an association list; Go map
   iteration order is unspecified, and the list order stands for one
   admissible iteration order (no theorem below depends on which).
--------------------------------------------------------------------------- -/

/-- Device pool of the connection endpoint: device identifier to in-use
flag. -/
abbrev DevicePool := List (String × Bool)

/-- Pick of ConnectionEndpoint.Request: the first device whose in-use flag is
false, or the empty string (the Go zero value of pickedPciAddress) when every
device is in use. -/
def requestPickFree (pool : DevicePool) : String :=
  match pool.find? (fun p => !p.2) with
  | some p => p.1
  | none => ""

/-- Mark a device in use, as the map assignment in Request does. -/
def setInUse (pool : DevicePool) (d : String) : DevicePool :=
  pool.map (fun p => if p.1 = d then (p.1, true) else p)

/-- Pool effect of ConnectionEndpoint.Request, part_000 lines 60-70: mark the
picked device in use only when one was picked. -/
def requestAllocStep (pool : DevicePool) : DevicePool :=
  let picked := requestPickFree pool
  if picked ≠ "" then setInUse pool picked else pool

/-- ConnectionEndpoint.Request, part_000 lines 47-78, on its pool: the request
fails only on the validity and mechanism-creation checks that precede the
pick; otherwise it completes, returning the updated pool and the picked
device (possibly none, as the empty string). -/
def ConnectionEndpointRequest (valid mechOk : Bool) (pool : DevicePool) :
    Except String (DevicePool × String) :=
  if valid = false then Except.error "request is not valid"
  else if mechOk = false then Except.error "mechanism not created"
  else Except.ok (requestAllocStep pool, requestPickFree pool)

/-- ConnectionEndpoint.Close, part_000 lines 83-92, on its pool: when the
connection carries a PciAddress parameter, assign false to that key (a Go map
assignment, which inserts the key when absent). -/
def ConnectionEndpointClose (pool : DevicePool) (pciParam : Option String) : DevicePool :=
  match pciParam with
  | some p => ainsert pool p false
  | none => pool

/-- NewConnectionEndpoint, part_000 lines 108-133, on its pool: an empty
configuration yields the empty pool, otherwise each comma-separated device of
the configuration is entered as not in use. -/
def NewConnectionEndpointPool (cfg : String) : DevicePool :=
  if cfg = "" then [] else (splitComma cfg).foldl (fun m p => ainsert m p false) []

/-- Pool operations of the endpoint: a Request allocation step or a Close
with the optional PciAddress parameter of the closed connection. -/
inductive PoolOp where
  | alloc : PoolOp
  | close : Option String → PoolOp

/-- Run a sequence of endpoint pool operations. -/
def runPoolOps : List PoolOp → DevicePool → DevicePool
  | [], pool => pool
  | PoolOp.alloc :: ops, pool => runPoolOps ops (requestAllocStep pool)
  | PoolOp.close p :: ops, pool => runPoolOps ops (ConnectionEndpointClose pool p)

/-- Number of devices currently marked in use. -/
def inUseCount (pool : DevicePool) : Nat :=
  (pool.filter (fun p => p.2)).length

/-- Sample exhausted pool: the single configured device is in use. -/
def pool0 : DevicePool := [("0000:01:00.1", true)]

/- ---------------------------------------------------------------------------
   VF lifecycle (sriov/sriov.go, src/unnamed/part_005).
   Links are keyed by PCI address; parsed IP addresses are kept in canonical
   string form, with netlink.ParseAddr an oracle parameter.
--------------------------------------------------------------------------- -/

/-- Kernel state of one network link: its current name, assigned addresses in
parsed form, admin state, and the namespace it lives in. -/
structure VfLinkSt where
  name : String
  addrs : List String
  up : Bool
  ns : String
deriving DecidableEq

/-- vfLink.AddAddress, part_005 lines 94-121: parse the address, return
success unchanged when an equal address is already assigned, otherwise append
it.  The parse parameter stands for netlink.ParseAddr. -/
def vfAddAddress (parseAddr : String → Option String) (link : VfLinkSt) (ip : String) :
    Except String VfLinkSt :=
  match parseAddr ip with
  | none => Except.error ("failed to parse IP address " ++ ip)
  | some a =>
    if a ∈ link.addrs then Except.ok link
    else Except.ok { link with addrs := link.addrs ++ [a] }

/-- VFInterfaceConfiguration, sriov.go lines 17-24. -/
structure VFInterfaceConfiguration where
  pciAddress : String
  name : String
  netRepDevice : String
  ipAddress : String
  macAddress : String
  targetNetns : String
deriving DecidableEq

/-- World the VF lifecycle manager acts on: links keyed by PCI address, the
VfNameMap original-name registry, and the namespaces that currently exist. -/
structure SriovWorld where
  links : List (String × VfLinkSt)
  vfNameMap : List (String × String)
  namespaces : List String

/-- searchByPCIAddress, part_005 lines 180-212: the sysfs net directory of the
PCI address names the device's link when that link resides in the searched
namespace. -/
def searchByPCI (w : SriovWorld) (ns pci : String) : Option String :=
  match alookup w.links pci with
  | some l => if l.ns = ns then some pci else none
  | none => none

/-- searchByName, part_005 lines 214-232: an empty target name finds nothing;
otherwise look the name up among the links of the searched namespace. -/
def searchByNameGo (w : SriovWorld) (ns name : String) : Option String :=
  if name = "" then none
  else ((w.links).find? (fun p => p.2.name == name && p.2.ns == ns)).map (fun p => p.1)

/-- GetLink, part_005 lines 43-69: try each provided namespace in order, and
inside it first the PCI-address search, then the by-name search; the result
identifies the link by its key. -/
def GetLink (w : SriovWorld) (pci name : String) (nss : List String) : Option String :=
  nss.findSome? (fun ns =>
    match searchByPCI w ns pci with
    | some key => some key
    | none => searchByNameGo w ns name)

/-- Pointwise update of the link stored under a key, leaving other entries
unchanged. -/
def aupdate (links : List (String × VfLinkSt)) (key : String) (f : VfLinkSt → VfLinkSt) :
    List (String × VfLinkSt) :=
  links.map (fun p => if p.1 = key then (key, f p.2) else p)

/-- Replace the link stored under a key. -/
def setLink (links : List (String × VfLinkSt)) (key : String) (l : VfLinkSt) :
    List (String × VfLinkSt) :=
  aupdate links key (fun _ => l)

/-- SetupVF, sriov.go lines 90-155: resolve the target namespace, locate the
link by PCI address or name in the host then the target namespace, record its
current name in VfNameMap, move it into the target namespace, add the IP
address, rename it to the configured name and bring it up.  The result pairs
the (possibly partially) mutated world with the error, if any, so that the
registry entry written before a later failing step survives that failure as
in the source. -/
def SetupVF (parseAddr : String → Option String) (w : SriovWorld)
    (cfg : VFInterfaceConfiguration) (hostNs : String) : SriovWorld × Option String :=
  if cfg.targetNetns ∈ w.namespaces then
    match GetLink w cfg.pciAddress cfg.name [hostNs, cfg.targetNetns] with
    | none => (w, some "failed to setup VF")
    | some key =>
      match alookup w.links key with
      | none => (w, some "failed to setup VF")
      | some l =>
        if l.name = "" then (w, some "failed to setup VF")
        else
          let wMap := { w with vfNameMap := ainsert w.vfNameMap cfg.pciAddress l.name }
          let l1 := if l.ns = cfg.targetNetns then l else { l with up := false, ns := cfg.targetNetns }
          match vfAddAddress parseAddr l1 cfg.ipAddress with
          | Except.error e => ({ wMap with links := setLink wMap.links key l1 }, some e)
          | Except.ok l2 =>
            let l3 := { l2 with name := cfg.name, up := true }
            ({ wMap with links := setLink wMap.links key l3 }, none)
  else (w, some "failed to setup VF")

/-- ResetVF, sriov.go lines 159-183: locate the link in the host namespace;
when the registry holds an original name for the PCI address, delete the
entry and rename the link back to it. -/
def ResetVF (w : SriovWorld) (cfg : VFInterfaceConfiguration) (hostNs : String) :
    SriovWorld × Option String :=
  match GetLink w cfg.pciAddress cfg.name [hostNs] with
  | none => (w, some "failed to release VF")
  | some key =>
    match alookup w.vfNameMap cfg.pciAddress, alookup w.links key with
    | some orig, some l =>
      ({ w with vfNameMap := aerase w.vfNameMap cfg.pciAddress
                links := setLink w.links key { l with name := orig, up := true } }, none)
    | some _, none =>
      ({ w with vfNameMap := aerase w.vfNameMap cfg.pciAddress }, none)
    | none, _ => (w, none)

/-- Environment event between Attach and Detach: upon deletion of the owning
pod the kernel returns the VF to the host namespace, which is the situation
the doc comment of ResetVF describes. -/
def returnVFToHost (w : SriovWorld) (key hostNs : String) : SriovWorld :=
  { w with links := aupdate w.links key (fun l => { l with ns := hostNs }) }

/- ---------------------------------------------------------------------------
   Connection teardown bookkeeping (local.go, and the remote connection
   handler of src/unnamed/part_002).  DevIDMap is the device allocation
   record; the request is reduced to the mechanism parameters the teardown
   reads.
--------------------------------------------------------------------------- -/

/-- Mechanism and context parameters of one connection as the teardown reads
them: the optional interface name and workspace parameters, the namespace
inode, and the source and destination IP context. -/
structure ConnParams where
  ifaceName : Option String
  workspace : Option String
  netNsInode : String
  srcIpAddr : String
  dstIpAddr : String
deriving DecidableEq

/-- Modelled from the spec: the revision under verification calls a
four-argument GetLocalConnectionConfig whose definition is not among the
provided sources (common.go carries the earlier three-argument form, which
reads the PCI address from the request parameters).  Per the specification,
teardown device identifiers are recovered from the allocation record and
passed in, so this variant takes the device identifier as an argument; the
remaining fields follow the three-argument source: the name falls back from
the interface-name parameter to the workspace parameter, and the IP comes
from the destination or source context according to the side. -/
def GetLocalConnectionConfig (c : ConnParams) (device ovsPortName : String) (isDst : Bool) :
    VFInterfaceConfiguration :=
  { pciAddress := device
    name := match c.ifaceName with
      | some n => n
      | none => c.workspace.getD ""
    netRepDevice := ovsPortName
    ipAddress := if isDst then c.dstIpAddr else c.srcIpAddr
    macAddress := ""
    targetNetns := c.netNsInode }

/-- Port-name role tag of the local source side. -/
def srcPortTag : String := "tapsrc"

/-- Port-name role tag of the local destination side. -/
def dstPortTag : String := "tapdst"

/-- Representor of a device as teardown computes it: the oracle result, or
the empty string when the lookup fails (the failure is only logged). -/
def netRepOrEmpty (g : String → Except String String) (d : String) : String :=
  match g d with
  | Except.ok r => r
  | Except.error _ => ""

/-- Observable outcome of deleteLocalConnection: the devices recovered from
the record, the switch port names used for teardown, the record table after
completion, and the configurations handed to the release step. -/
structure LocalDeleteOutcome where
  srcDeviceID : String
  dstDeviceID : String
  srcOvSPortName : String
  dstOvSPortName : String
  devIDMap : List (String × String)
  srcConfig : VFInterfaceConfiguration
  dstConfig : VFInterfaceConfiguration
deriving DecidableEq

/-- deleteLocalConnection, local.go lines 173-225: recover the source and
destination devices from DevIDMap under the src- and dst- role keys, resolve
their representors (failures logged, leaving the name empty), fall back to
the tapsrc/tapdst port names derived from the connection identifier when no
device was recorded, tear down the switch side, release both interfaces with
configurations built from the recovered devices, and delete both record
entries. -/
def deleteLocalConnection (g : String → Except String String)
    (m : List (String × String)) (connID : String) (srcConn dstConn : ConnParams) :
    LocalDeleteOutcome :=
  let srcDeviceID := (alookup m ("src-" ++ connID)).getD ""
  let srcNetRep := match alookup m ("src-" ++ connID) with
    | some d => netRepOrEmpty g d
    | none => ""
  let dstDeviceID := (alookup m ("dst-" ++ connID)).getD ""
  let dstNetRep := match alookup m ("dst-" ++ connID) with
    | some d => netRepOrEmpty g d
    | none => ""
  let srcOvSPortName := if srcDeviceID ≠ "" then srcNetRep else srcPortTag ++ connID
  let dstOvSPortName := if dstDeviceID ≠ "" then dstNetRep else dstPortTag ++ connID
  let srcConfig := GetLocalConnectionConfig srcConn srcDeviceID srcOvSPortName false
  let dstConfig := GetLocalConnectionConfig dstConn dstDeviceID dstOvSPortName true
  { srcDeviceID := srcDeviceID
    dstDeviceID := dstDeviceID
    srcOvSPortName := srcOvSPortName
    dstOvSPortName := dstOvSPortName
    devIDMap := aerase (aerase m ("src-" ++ connID)) ("dst-" ++ connID)
    srcConfig := srcConfig
    dstConfig := dstConfig }

/-- Packet direction of a remote connection, remote/remote.go lines 34-37. -/
inductive Direction where
  | incoming : Direction
  | outgoing : Direction
deriving DecidableEq

/-- Mechanism value of the kernel mechanism, an external API constant. -/
def kernelMECHANISM : String := "KERNEL_INTERFACE"

/-- Mechanism value of the VXLAN mechanism, an external API constant. -/
def vxlanMECHANISM : String := "VXLAN"

/-- Mechanism parameters of the remote side of a cross-connect: its
mechanism type and the VXLAN source, destination and VNI parameters. -/
structure RemoteParams where
  mechType : String
  srcIP : String
  dstIP : String
  vniStr : String
deriving DecidableEq

/-- getVXLANParameters, vxlan.go lines 61-75: the VNI parsed from the
mechanism parameters, and the tunnel name derived from the remote peer IP,
which is the source IP for an incoming connection and the destination IP
otherwise. -/
def getVXLANParameters (rp : RemoteParams) (dir : Direction) : Int × String :=
  let remoteIP := match dir with
    | Direction.incoming => rp.srcIP
    | Direction.outgoing => rp.dstIP
  (atoiGo rp.vniStr, ovsTunnelNameOf remoteIP)

/-- GetTunnelParameters, remote.go lines 61-68: only the VXLAN mechanism is
known; any other mechanism type is an error. -/
def GetTunnelParameters (rp : RemoteParams) (dir : Direction) : Except String (Int × String) :=
  if rp.mechType = vxlanMECHANISM then Except.ok (getVXLANParameters rp dir)
  else Except.error ("unknown remote mechanism - " ++ rp.mechType)

/-- Observable outcome of deleteRemoteConnection: the device recovered from
the record, the port and tunnel names, the record table after completion,
the tunnel-registry state, and the configuration handed to the release
step. -/
structure RemoteDeleteOutcome where
  deviceID : String
  ovsPortName : String
  tunnelName : String
  vni : Int
  devIDMap : List (String × String)
  tunState : TunState
  config : VFInterfaceConfiguration

/-- deleteRemoteConnection, part_002 lines 130-179: resolve the tunnel
parameters (an unknown mechanism aborts before any teardown), recover the
device from DevIDMap under the rem- role key, fall back to the tap_ port
name derived from the connection identifier, tear down the local port with
its binding, release the local interface with a configuration built from the
recovered device, release the tunnel reference (its error only logged), and
delete the record entry. -/
def deleteRemoteConnection (g : String → Except String String) (ts : TunState)
    (m : List (String × String)) (connID : String) (localConn : ConnParams)
    (rp : RemoteParams) (dir : Direction) : Except String RemoteDeleteOutcome :=
  match GetTunnelParameters rp dir with
  | Except.error e => Except.error e
  | Except.ok vt =>
    let deviceID := (alookup m ("rem-" ++ connID)).getD ""
    let netRep := match alookup m ("rem-" ++ connID) with
      | some d => netRepOrEmpty g d
      | none => ""
    let ovsPortName := if deviceID ≠ "" then netRep else "tap_" ++ connID
    let ts1 := { ts with
      portMap := fun x => if x = ovsPortName then none else ts.portMap x
      switchPorts := fun x => if x = ovsPortName then false else ts.switchPorts x }
    let config := GetLocalConnectionConfig localConn deviceID ovsPortName
      (dir = Direction.incoming)
    let ts2 := (deleteVXLANInterface ts1 vt.2).1
    Except.ok
      { deviceID := deviceID
        ovsPortName := ovsPortName
        tunnelName := vt.2
        vni := vt.1
        devIDMap := aerase m ("rem-" ++ connID)
        tunState := ts2
        config := config }

/- ---------------------------------------------------------------------------
   Caller-visible Close (ovsforwarder.go, and the remote handler of
   src/unnamed/part_002).  The teardown work is abstracted to the ordered
   list of steps that execute; the first component is the error the gRPC
   caller sees.
--------------------------------------------------------------------------- -/

/-- Mechanism types and remoteness flags of the two ends of a cross-connect,
which is what classification and teardown dispatch read. -/
structure XConnEnds where
  id : String
  srcMechType : String
  dstMechType : String
  srcIsRemote : Bool
  dstIsRemote : Bool
deriving DecidableEq

/-- Teardown actions of a Close, in source order. -/
inductive TeardownStep where
  | deleteOvsPortsAndFlows : TeardownStep
  | releaseSrcInterface : TeardownStep
  | releaseDstInterface : TeardownStep
  | releaseLocalInterface : TeardownStep
  | deleteTunnel : TeardownStep
  | deleteRecords : TeardownStep
deriving DecidableEq

/-- deleteLocalConnection control flow: it always completes, performing the
switch teardown, both interface releases and the record deletion. -/
def deleteLocalCloseFlow : Except String Unit × List TeardownStep :=
  (Except.ok (), [TeardownStep.deleteOvsPortsAndFlows, TeardownStep.releaseSrcInterface,
    TeardownStep.releaseDstInterface, TeardownStep.deleteRecords])

/-- deleteRemoteConnection control flow, part_002 lines 130-179: an unknown
remote mechanism fails in GetTunnelParameters and returns before any teardown
step; otherwise every teardown step runs. -/
def deleteRemoteCloseFlow (remoteMech : String) : Except String Unit × List TeardownStep :=
  if remoteMech = vxlanMECHANISM then
    (Except.ok (), [TeardownStep.deleteOvsPortsAndFlows, TeardownStep.releaseLocalInterface,
      TeardownStep.deleteTunnel, TeardownStep.deleteRecords])
  else (Except.error ("unknown remote mechanism - " ++ remoteMech), [])

/-- handleRemoteConnection, part_002 lines 34-47, on a disconnect: dispatch on
which side is remote; a cross-connect that is not remote on exactly one side
is an invalid connection type. -/
def handleRemoteConnectionClose (cc : XConnEnds) : Except String Unit × List TeardownStep :=
  if cc.srcIsRemote = true ∧ cc.dstIsRemote = false then
    deleteRemoteCloseFlow cc.srcMechType
  else if cc.srcIsRemote = false ∧ cc.dstIsRemote = true then
    deleteRemoteCloseFlow cc.dstMechType
  else (Except.error "remote: invalid connection type", [])

/-- connectOrDisconnect, ovsforwarder.go lines 97-130, on a disconnect: both
ends kernel-mechanism means the local path, anything else the remote path. -/
def connectOrDisconnectClose (cc : XConnEnds) : Except String Unit × List TeardownStep :=
  if cc.srcMechType = kernelMECHANISM ∧ cc.dstMechType = kernelMECHANISM then
    deleteLocalCloseFlow
  else handleRemoteConnectionClose cc

/-- OvSForwarder.Close, ovsforwarder.go lines 87-95: run the disconnect, log
its error if any, and return an empty result with a nil error to the caller
unconditionally. -/
def OvSForwarderClose (cc : XConnEnds) : Option String × List TeardownStep :=
  (none, (connectOrDisconnectClose cc).2)

/- ---------------------------------------------------------------------------
   Port-id query with retries (ovsutils/ovsutils.go lines 88-110).  The
   oracle gives the ovs-vsctl result of each attempt in order.
--------------------------------------------------------------------------- -/

/-- Retry loop of GetInterfaceOfPort: count starts at 5; a switch-query error
returns -1 with that error; a parsed id of 0 consumes one retry; a non-zero
id breaks out; when the count is exhausted the last parsed id (0) is
returned with a nil error. -/
def getOfPortLoop (o : Nat → Except String String) : Nat → Nat → Int → Int × Option String
  | 0, _, portNo => (portNo, none)
  | c + 1, i, _ =>
    match o i with
    | Except.error e => (-1, some e)
    | Except.ok out =>
      let p := atoiGo out
      if p = 0 then getOfPortLoop o c (i + 1) p else (p, none)

/-- GetInterfaceOfPort, ovsutils.go lines 88-110, for a fixed port name whose
successive ovs-vsctl answers the oracle provides. -/
def GetInterfaceOfPort (o : Nat → Except String String) : Int × Option String :=
  getOfPortLoop o 5 0 0

/-- Switch oracle that reports port id 0 on every attempt, the persistent
form of the transient condition the retry loop guards against. -/
def zeroPortOracle : Nat → Except String String :=
  fun _ => Except.ok "0"

/- ---------------------------------------------------------------------------
   Concrete sample inputs used by the witnesses below.
--------------------------------------------------------------------------- -/

/-- Sample ovs-vsctl listing in which both representors of the sample oracle
are already attached to the bridge. -/
def listIfaceOutBoth : String :=
  "name                : \"rep1\"\n\nname                : \"rep2\""

/-- Sample allocation-record table: a device on the source side of connection
conn1, the empty record of its veth destination side, and a device on a
remote connection conn2. -/
def devIDMap0 : List (String × String) :=
  [("src-conn1", "0000:01:00.1"), ("dst-conn1", ""), ("rem-conn2", "0000:01:00.2")]

/-- Sample connection parameters carrying an interface name. -/
def connParams0 : ConnParams :=
  { ifaceName := some "nsm0"
    workspace := none
    netNsInode := "4026532714"
    srcIpAddr := "10.1.1.1/30"
    dstIpAddr := "10.1.1.2/30" }

/-- Sample connection parameters falling back to the workspace name. -/
def connParams1 : ConnParams :=
  { ifaceName := none
    workspace := some "ws1"
    netNsInode := "4026532999"
    srcIpAddr := "10.2.2.1/30"
    dstIpAddr := "10.2.2.2/30" }

/-- Sample VXLAN remote mechanism with peer 10.0.0.5 and VNI 42. -/
def remoteParams0 : RemoteParams :=
  { mechType := vxlanMECHANISM
    srcIP := "10.0.0.5"
    dstIP := "10.0.0.7"
    vniStr := "42" }

/-- Sample address parser: any non-empty address string parses to itself. -/
def parseAddr0 : String → Option String :=
  fun s => if s = "" then none else some s

/-- Sample VF link in the host namespace before an Attach. -/
def link0 : VfLinkSt :=
  { name := "enp1s0f2", addrs := [], up := false, ns := "hostns" }

/-- Sample VF world: one link, an empty registry, one target namespace. -/
def world0 : SriovWorld :=
  { links := [("0000:01:00.2", link0)]
    vfNameMap := []
    namespaces := ["ns1"] }

/-- Sample VF configuration attaching the device into namespace ns1. -/
def cfg0 : VFInterfaceConfiguration :=
  { pciAddress := "0000:01:00.2"
    name := "nsm1"
    netRepDevice := "rep2"
    ipAddress := "10.1.1.2/30"
    macAddress := ""
    targetNetns := "ns1" }

/-- Sample cross-connect whose remote destination carries an unknown
mechanism type. -/
def ccUnknownMech : XConnEnds :=
  { id := "conn9"
    srcMechType := kernelMECHANISM
    dstMechType := "MEMIF"
    srcIsRemote := false
    dstIsRemote := true }

/- ---------------------------------------------------------------------------
   Association-list lemmas.
--------------------------------------------------------------------------- -/

theorem alookup_ainsert_self {β : Type} (m : List (String × β)) (k : String) (v : β) :
    alookup (ainsert m k v) k = some v := by
  induction m with
  | nil => simp [ainsert, alookup]
  | cons p m ih =>
    by_cases h : p.1 = k
    · simp [ainsert, h, alookup]
    · simp [ainsert, h, alookup, ih]

theorem alookup_ainsert_ne {β : Type} (m : List (String × β)) (k k' : String) (v : β)
    (hk : k ≠ k') : alookup (ainsert m k v) k' = alookup m k' := by
  induction m with
  | nil => simp [ainsert, alookup, hk]
  | cons p m ih =>
    by_cases h : p.1 = k
    · have hp : p.1 ≠ k' := by rw [h]; exact hk
      simp [ainsert, h, alookup, hk, hp]
    · simp [ainsert, h, alookup, ih]

theorem alookup_aerase_self {β : Type} (m : List (String × β)) (k : String) :
    alookup (aerase m k) k = none := by
  induction m with
  | nil => simp [aerase, alookup]
  | cons p m ih =>
    by_cases h : p.1 = k
    · simp [aerase, h, ih]
    · simp [aerase, h, alookup, ih]

theorem alookup_aerase_ne {β : Type} (m : List (String × β)) (k k' : String) (hk : k ≠ k') :
    alookup (aerase m k) k' = alookup m k' := by
  induction m with
  | nil => simp [aerase]
  | cons p m ih =>
    by_cases h : p.1 = k
    · simp [aerase, h, alookup, hk, ih]
    · simp [aerase, h, alookup, ih]

theorem akeys_ainsert_mem {β : Type} (m : List (String × β)) (k : String) (v : β) :
    k ∈ akeys m → akeys (ainsert m k v) = akeys m := by
  induction m with
  | nil => intro h; simp [akeys] at h
  | cons p m ih =>
    intro h
    by_cases hp : p.1 = k
    · simp [ainsert, hp, akeys]
    · have h0 : k ∈ akeys m := by
        simp only [akeys, List.map_cons, List.mem_cons] at h
        rcases h with h1 | h1
        · exact absurd h1.symm hp
        · simpa [akeys] using h1
      have ihm := ih h0
      simp only [ainsert, if_neg hp, akeys, List.map_cons, List.cons.injEq]
      exact ⟨trivial, by simpa [akeys] using ihm⟩

theorem akeys_ainsert_not_mem {β : Type} (m : List (String × β)) (k : String) (v : β) :
    k ∉ akeys m → akeys (ainsert m k v) = akeys m ++ [k] := by
  induction m with
  | nil => intro _; simp [ainsert, akeys]
  | cons p m ih =>
    intro h
    have hp : p.1 ≠ k := by
      intro he
      exact h (by simp [akeys, he])
    have h0 : k ∉ akeys m := by
      intro hm
      exact h (by simp only [akeys, List.map_cons, List.mem_cons]; exact Or.inr hm)
    have ihm := ih h0
    simp only [ainsert, if_neg hp, akeys, List.map_cons, List.cons_append, List.cons.injEq]
    exact ⟨trivial, by simpa [akeys] using ihm⟩

/- ---------------------------------------------------------------------------
   Tunnel registry lemmas and claim C1.
--------------------------------------------------------------------------- -/

theorem createVXLAN_absent (s : TunState) (k : String) (h : s.vxlanInterfaces k = none) :
    (createVXLANInterface s k).1.vxlanInterfaces k = some 1
    ∧ (createVXLANInterface s k).2 = true
    ∧ (createVXLANInterface s k).1.switchPorts k = true
    ∧ (∀ x, (createVXLANInterface s k).1.portMap x = s.portMap x) := by
  simp [createVXLANInterface, h, goGet, newVXLAN]

theorem createVXLAN_present (s : TunState) (k : String) (c : Nat)
    (h : s.vxlanInterfaces k = some c) :
    (createVXLANInterface s k).1.vxlanInterfaces k = some (c + 1)
    ∧ (createVXLANInterface s k).2 = false
    ∧ (∀ x, (createVXLANInterface s k).1.switchPorts x = s.switchPorts x)
    ∧ (∀ x, (createVXLANInterface s k).1.portMap x = s.portMap x) := by
  simp [createVXLANInterface, h, goGet]

theorem acquireN_present (k : String) :
    ∀ (n : Nat) (s : TunState) (c : Nat), s.vxlanInterfaces k = some c →
      (acquireN k n s).1.vxlanInterfaces k = some (c + n)
      ∧ (acquireN k n s).2 = 0
      ∧ (∀ x, (acquireN k n s).1.switchPorts x = s.switchPorts x)
      ∧ (∀ x, (acquireN k n s).1.portMap x = s.portMap x) := by
  intro n
  induction n with
  | zero => intro s c h; simp [acquireN, h]
  | succ n ih =>
    intro s c h
    have hc := createVXLAN_present s k c h
    have hr := ih (createVXLANInterface s k).1 (c + 1) hc.1
    simp only [acquireN]
    refine ⟨?_, ?_, ?_, ?_⟩
    · have : c + 1 + n = c + (n + 1) := by omega
      rw [hr.1, this]
    · rw [hc.2.1, hr.2.1]; simp
    · intro x; rw [hr.2.2.1 x, hc.2.2.1 x]
    · intro x; rw [hr.2.2.2 x, hc.2.2.2 x]

theorem acquireN_from_absent (k : String) (m : Nat) (s : TunState)
    (h : s.vxlanInterfaces k = none) :
    (acquireN k (m + 1) s).1.vxlanInterfaces k = some (m + 1)
    ∧ (acquireN k (m + 1) s).2 = 1
    ∧ (acquireN k (m + 1) s).1.switchPorts k = true := by
  have hc := createVXLAN_absent s k h
  have hr := acquireN_present k m (createVXLANInterface s k).1 1 hc.1
  simp only [acquireN]
  refine ⟨?_, ?_, ?_⟩
  · have : 1 + m = m + 1 := by omega
    rw [hr.1, this]
  · rw [hc.2.1, hr.2.1]; simp
  · rw [hr.2.2.1 k, hc.2.2.1]

theorem deleteVXLAN_dec (s : TunState) (k : String) (c : Nat)
    (h : s.vxlanInterfaces k = some (c + 2)) :
    (deleteVXLANInterface s k).1.vxlanInterfaces k = some (c + 1)
    ∧ (deleteVXLANInterface s k).2 = false
    ∧ (∀ x, (deleteVXLANInterface s k).1.switchPorts x = s.switchPorts x)
    ∧ (∀ x, (deleteVXLANInterface s k).1.portMap x = s.portMap x) := by
  have h1 : goGet s.vxlanInterfaces k = c + 2 := by simp [goGet, h]
  unfold deleteVXLANInterface
  rw [h1, if_neg (by omega), if_pos (by omega)]
  simp

theorem deleteVXLAN_last (s : TunState) (k : String) (h : s.vxlanInterfaces k = some 1) :
    (deleteVXLANInterface s k).1.vxlanInterfaces k = none
    ∧ (deleteVXLANInterface s k).2 = true
    ∧ (deleteVXLANInterface s k).1.switchPorts k = false
    ∧ (deleteVXLANInterface s k).1.portMap k = none := by
  have h1 : goGet s.vxlanInterfaces k = 1 := by simp [goGet, h]
  unfold deleteVXLANInterface
  rw [h1, if_pos rfl]
  simp [deleteVXLAN]

theorem releaseN_partial (k : String) :
    ∀ (j : Nat) (s : TunState) (c : Nat), s.vxlanInterfaces k = some c → j < c →
      (releaseN k j s).1.vxlanInterfaces k = some (c - j)
      ∧ (releaseN k j s).2 = 0
      ∧ (∀ x, (releaseN k j s).1.switchPorts x = s.switchPorts x) := by
  intro j
  induction j with
  | zero => intro s c h _; simp [releaseN, h]
  | succ j ih =>
    intro s c h hj
    obtain ⟨c2, rfl⟩ : ∃ c2, c = c2 + 2 := ⟨c - 2, by omega⟩
    have hd := deleteVXLAN_dec s k c2 h
    have hr := ih (deleteVXLANInterface s k).1 (c2 + 1) hd.1 (by omega)
    simp only [releaseN]
    refine ⟨?_, ?_, ?_⟩
    · have : c2 + 1 - j = c2 + 2 - (j + 1) := by omega
      rw [hr.1, this]
    · rw [hd.2.1, hr.2.1]; simp
    · intro x; rw [hr.2.2 x, hd.2.2.1 x]

theorem releaseN_succ (k : String) (n : Nat) (s : TunState) :
    releaseN k (n + 1) s =
      ((releaseN k n (deleteVXLANInterface s k).1).1,
       (if (deleteVXLANInterface s k).2 then 1 else 0)
         + (releaseN k n (deleteVXLANInterface s k).1).2) := rfl

theorem releaseN_full (k : String) :
    ∀ (n : Nat) (s : TunState), s.vxlanInterfaces k = some (n + 1) →
      (releaseN k (n + 1) s).1.vxlanInterfaces k = none
      ∧ (releaseN k (n + 1) s).2 = 1
      ∧ (releaseN k (n + 1) s).1.switchPorts k = false
      ∧ (releaseN k (n + 1) s).1.portMap k = none := by
  intro n
  induction n with
  | zero =>
    intro s h
    have hd := deleteVXLAN_last s k h
    rw [releaseN_succ]
    simp [releaseN, hd.1, hd.2.1, hd.2.2.1, hd.2.2.2]
  | succ n ih =>
    intro s h
    have hd := deleteVXLAN_dec s k n h
    have hr := ih (deleteVXLANInterface s k).1 hd.1
    rw [releaseN_succ]
    refine ⟨hr.1, ?_, hr.2.2.1, hr.2.2.2⟩
    rw [hd.2.1, hr.2.1]; simp

/-- C1: for every remote-endpoint key, M Acquires (createVXLANInterface)
followed by M Releases (deleteVXLANInterface), M at least 1, starting with no
registry entry: the switch tunnel port is created exactly once and on the
first Acquire, the registry entry counts the outstanding Acquires (M after
the Acquires, M - j after j Releases), no Release before the M-th deletes
anything, and the M-th Release deletes the port, the registry entry and the
port binding exactly once. -/
theorem c1_tunnel_refcount (s : TunState) (k : String) (M : Nat)
    (hM : 1 ≤ M) (h0 : s.vxlanInterfaces k = none) :
    (createVXLANInterface s k).2 = true
    ∧ (acquireN k M s).2 = 1
    ∧ (acquireN k M s).1.vxlanInterfaces k = some M
    ∧ (acquireN k M s).1.switchPorts k = true
    ∧ (∀ j, j < M →
        (releaseN k j (acquireN k M s).1).1.vxlanInterfaces k = some (M - j)
        ∧ (releaseN k j (acquireN k M s).1).2 = 0
        ∧ (releaseN k j (acquireN k M s).1).1.switchPorts k = true)
    ∧ (releaseN k M (acquireN k M s).1).2 = 1
    ∧ (releaseN k M (acquireN k M s).1).1.vxlanInterfaces k = none
    ∧ (releaseN k M (acquireN k M s).1).1.switchPorts k = false
    ∧ (releaseN k M (acquireN k M s).1).1.portMap k = none := by
  obtain ⟨m, rfl⟩ : ∃ m, M = m + 1 := ⟨M - 1, by omega⟩
  have ha := acquireN_from_absent k m s h0
  have hrel := releaseN_full k m (acquireN k (m + 1) s).1 ha.1
  refine ⟨(createVXLAN_absent s k h0).2.1, ha.2.1, ha.1, ha.2.2, ?_,
    hrel.2.1, hrel.1, hrel.2.2.1, hrel.2.2.2⟩
  intro j hj
  have hp := releaseN_partial k j (acquireN k (m + 1) s).1 (m + 1) ha.1 hj
  exact ⟨hp.1, hp.2.1, by rw [hp.2.2 k, ha.2.2]⟩

/-- C1 witness: the specification scenario, peer IP 10.0.0.5 requested twice
from an empty registry. -/
theorem c1_tunnel_refcount_witness :
    (createVXLANInterface tunState0 (ovsTunnelNameOf "10.0.0.5")).2 = true
    ∧ (acquireN (ovsTunnelNameOf "10.0.0.5") 2 tunState0).2 = 1
    ∧ (acquireN (ovsTunnelNameOf "10.0.0.5") 2 tunState0).1.vxlanInterfaces
        (ovsTunnelNameOf "10.0.0.5") = some 2
    ∧ (releaseN (ovsTunnelNameOf "10.0.0.5") 1
        (acquireN (ovsTunnelNameOf "10.0.0.5") 2 tunState0).1).2 = 0
    ∧ (releaseN (ovsTunnelNameOf "10.0.0.5") 2
        (acquireN (ovsTunnelNameOf "10.0.0.5") 2 tunState0).1).2 = 1
    ∧ (releaseN (ovsTunnelNameOf "10.0.0.5") 2
        (acquireN (ovsTunnelNameOf "10.0.0.5") 2 tunState0).1).1.vxlanInterfaces
        (ovsTunnelNameOf "10.0.0.5") = none := by
  have h := c1_tunnel_refcount tunState0 (ovsTunnelNameOf "10.0.0.5") 2 (by omega) rfl
  exact ⟨h.1, h.2.1, h.2.2.1, (h.2.2.2.2.1 1 (by omega)).2.1, h.2.2.2.2.2.1,
    h.2.2.2.2.2.2.1⟩

/- ---------------------------------------------------------------------------
   Device picking lemmas and claims C2, C3, C4.
--------------------------------------------------------------------------- -/

theorem pickLoop_spec (g : String → Except String String) (out : String) :
    ∀ l : List String, (∀ d ∈ l, ∃ r, g d = Except.ok r) →
      pickLoop g (Except.ok out) l false =
        some (match allocateSpec g (parseOvsPorts out) l with
              | some p => Except.ok p
              | none => Except.error noNetRepMsg) := by
  intro l
  induction l with
  | nil => intro _; simp [pickLoop, allocateSpec]
  | cons d rest ih =>
    intro h
    obtain ⟨r, hr⟩ := h d (List.mem_cons_self d rest)
    have hrest : ∀ d2 ∈ rest, ∃ r2, g d2 = Except.ok r2 :=
      fun d2 hd2 => h d2 (List.mem_cons_of_mem d hd2)
    by_cases hin : r ∈ parseOvsPorts out
    · simp [pickLoop, hr, CheckNetRepAvailability, CheckNetRepOvs, hin, allocateSpec, ih hrest]
    · simp [pickLoop, hr, CheckNetRepAvailability, CheckNetRepOvs, hin, allocateSpec]

/-- C2: PickDeviceAndNetRep scans the comma-separated candidate list in order
and, provided each candidate's representor resolves, returns the first
candidate whose representor is not attached to the switch (its being attached
is how an in-use device presents itself to this component), or the
no-available-NetRep error when there is none; and attaching the picked
representor port marks exactly it as in use, leaving the attachment state of
every other representor unchanged. -/
theorem c2_allocate_first_viable (g : String → Except String String) (out : String)
    (ids : String) (h : ∀ d ∈ splitComma ids, ∃ r, g d = Except.ok r) :
    PickDeviceAndNetRep g (Except.ok out) ids =
      some (match allocateSpec g (parseOvsPorts out) (splitComma ids) with
            | some p => Except.ok p
            | none => Except.error noNetRepMsg)
    ∧ (∀ (p : String) (ps : List String),
        p ∈ addPortName ps p ∧ (∀ x, x ≠ p → (x ∈ addPortName ps p ↔ x ∈ ps))) := by
  constructor
  · exact pickLoop_spec g out (splitComma ids) h
  · intro p ps
    constructor
    · by_cases hp : p ∈ ps
      · simp [addPortName, hp]
      · simp [addPortName, hp]
    · intro x hx
      by_cases hp : p ∈ ps
      · simp [addPortName, hp]
      · simp [addPortName, hp, hx]

/-- C2 witness: the specification scenario, candidates 0000:01:00.1 (in use,
representor rep1 attached) and 0000:01:00.2 (free, representor rep2 live):
the second is returned, attaching rep2 marks it in use, and rep1's state is
unchanged. -/
theorem c2_allocate_first_viable_witness :
    PickDeviceAndNetRep netRepOracle0 (Except.ok listIfaceOut0) "0000:01:00.1,0000:01:00.2"
      = some (Except.ok ("0000:01:00.2", "rep2"))
    ∧ "rep2" ∈ addPortName (parseOvsPorts listIfaceOut0) "rep2"
    ∧ ("rep1" ∈ addPortName (parseOvsPorts listIfaceOut0) "rep2"
        ↔ "rep1" ∈ parseOvsPorts listIfaceOut0) := by
  have hyp : ∀ d ∈ splitComma "0000:01:00.1,0000:01:00.2",
      ∃ r, netRepOracle0 d = Except.ok r := by
    intro d hd
    have hs : splitComma "0000:01:00.1,0000:01:00.2" = ["0000:01:00.1", "0000:01:00.2"] := by
      decide
    rw [hs] at hd
    rcases List.mem_cons.mp hd with h1 | h1
    · exact ⟨"rep1", by rw [h1]; rfl⟩
    · rcases List.mem_cons.mp h1 with h2 | h2
      · exact ⟨"rep2", by rw [h2]; rfl⟩
      · simp at h2
  have h := c2_allocate_first_viable netRepOracle0 listIfaceOut0 "0000:01:00.1,0000:01:00.2" hyp
  exact ⟨h.1.trans rfl, (h.2 "rep2" (parseOvsPorts listIfaceOut0)).1,
    (h.2 "rep2" (parseOvsPorts listIfaceOut0)).2 "rep1" (by decide)⟩

/-- C3 (evaluation at the failing input): the embedded control flow of
PickDeviceAndNetRep has the no-value fall-through after the loop when
availNetRep is true, and on a candidate list whose only representor is
already attached the reachable failure branch yields the
no-available-NetRep error. -/
theorem c3_pick_failure_branch :
    pickLoop netRepOracle0 (Except.ok listIfaceOut0) [] true = none
    ∧ PickDeviceAndNetRep netRepOracle0 (Except.ok listIfaceOut0) "0000:01:00.1"
      = some (Except.error noNetRepMsg) := ⟨rfl, rfl⟩

theorem akeys_setInUse (pool : DevicePool) (d : String) :
    akeys (setInUse pool d) = akeys pool := by
  unfold akeys setInUse
  rw [List.map_map]
  apply List.map_congr_left
  intro a _
  by_cases h : a.1 = d <;> simp [h, Function.comp]

theorem akeys_requestAllocStep (pool : DevicePool) :
    akeys (requestAllocStep pool) = akeys pool := by
  by_cases h : requestPickFree pool = ""
  · simp [requestAllocStep, h]
  · simp [requestAllocStep, h, akeys_setInUse]

theorem length_requestAllocStep (pool : DevicePool) :
    (requestAllocStep pool).length = pool.length := by
  by_cases h : requestPickFree pool = ""
  · simp [requestAllocStep, h]
  · simp [requestAllocStep, h, setInUse]

theorem pickLoop_all_attached (g : String → Except String String) (out : String) :
    ∀ l : List String, (∀ d ∈ l, ∃ r, g d = Except.ok r ∧ r ∈ parseOvsPorts out) →
      pickLoop g (Except.ok out) l false = some (Except.error noNetRepMsg) := by
  intro l
  induction l with
  | nil => intro _; simp [pickLoop]
  | cons d rest ih =>
    intro h
    obtain ⟨r, hr, hin⟩ := h d (List.mem_cons_self d rest)
    simp [pickLoop, hr, CheckNetRepAvailability, CheckNetRepOvs, hin,
      ih (fun d2 hd2 => h d2 (List.mem_cons_of_mem d hd2))]

/-- C4 (amended): the endpoint pool admits at most as many outstanding
allocations as it has entries and a request allocation step never adds pool
keys; but when every device is in use, ConnectionEndpoint.Request completes
successfully with no device selected and the pool unchanged, rather than
failing; the no-device failure exists only in the forwarder's
PickDeviceAndNetRep, which errors when every candidate's representor is
already attached. -/
theorem c4_pool_exhaustion_amended :
    (∀ pool : DevicePool, (∀ p ∈ pool, p.2 = true) →
      ConnectionEndpointRequest true true pool = Except.ok (pool, ""))
    ∧ (∀ pool : DevicePool,
        akeys (requestAllocStep pool) = akeys pool
        ∧ inUseCount (requestAllocStep pool) ≤ pool.length
        ∧ inUseCount pool ≤ pool.length)
    ∧ (∀ (g : String → Except String String) (out ids : String),
        (∀ d ∈ splitComma ids, ∃ r, g d = Except.ok r ∧ r ∈ parseOvsPorts out) →
        PickDeviceAndNetRep g (Except.ok out) ids = some (Except.error noNetRepMsg)) := by
  refine ⟨?_, ?_, ?_⟩
  · intro pool hall
    have hfind : pool.find? (fun p => !p.2) = none := by
      rw [List.find?_eq_none]
      intro p hp
      simp [hall p hp]
    simp [ConnectionEndpointRequest, requestAllocStep, requestPickFree, hfind]
  · intro pool
    refine ⟨akeys_requestAllocStep pool, ?_, List.length_filter_le _ _⟩
    calc inUseCount (requestAllocStep pool) ≤ (requestAllocStep pool).length :=
          List.length_filter_le _ _
      _ = pool.length := length_requestAllocStep pool
  · intro g out ids h
    exact pickLoop_all_attached g out (splitComma ids) h

/-- C4 counterexample: with the single configured device in use, a valid
request completes successfully, selecting no device and leaving the pool
unchanged, instead of failing with a no-device error as the claim states. -/
theorem c4_counterexample :
    ConnectionEndpointRequest true true pool0 = Except.ok (pool0, "")
    ∧ (match ConnectionEndpointRequest true true pool0 with
       | Except.ok _ => true
       | Except.error _ => false) = true := ⟨rfl, rfl⟩

/-- C4 witness: the amended distinction at concrete inputs: the exhausted
endpoint pool completes without a device, and the forwarder picker errors
when both candidate representors are attached. -/
theorem c4_pool_exhaustion_amended_witness :
    ConnectionEndpointRequest true true pool0 = Except.ok (pool0, "")
    ∧ inUseCount (requestAllocStep pool0) ≤ pool0.length
    ∧ PickDeviceAndNetRep netRepOracle0 (Except.ok listIfaceOutBoth) "0000:01:00.1,0000:01:00.2"
      = some (Except.error noNetRepMsg) := by
  have h := c4_pool_exhaustion_amended
  refine ⟨h.1 pool0 ?_, (h.2.1 pool0).2.1,
    h.2.2 netRepOracle0 listIfaceOutBoth "0000:01:00.1,0000:01:00.2" ?_⟩
  · intro p hp
    have hp2 : p = ("0000:01:00.1", true) := by simpa [pool0] using hp
    rw [hp2]
  · intro d hd
    have hs : splitComma "0000:01:00.1,0000:01:00.2" = ["0000:01:00.1", "0000:01:00.2"] := by
      decide
    rw [hs] at hd
    rcases List.mem_cons.mp hd with h1 | h1
    · exact ⟨"rep1", by rw [h1]; rfl, by decide⟩
    · rcases List.mem_cons.mp h1 with h2 | h2
      · exact ⟨"rep2", by rw [h2]; rfl, by decide⟩
      · simp at h2

/- ---------------------------------------------------------------------------
   Claim C5: endpoint pool key set.
--------------------------------------------------------------------------- -/

/-- C5 (amended): request allocation steps never change the pool's key set,
and a Close whose device identifier is already a pool key leaves the key set
unchanged, so any operation sequence whose Close identifiers all lie in the
initial key set preserves it; but a Close with an identifier outside the key
set inserts that identifier (a Go map assignment), growing the key set beyond
the configured one. -/
theorem c5_pool_keys_amended :
    (∀ (ops : List PoolOp) (pool : DevicePool),
      (∀ p : String, PoolOp.close (some p) ∈ ops → p ∈ akeys pool) →
      akeys (runPoolOps ops pool) = akeys pool)
    ∧ (∀ (pool : DevicePool) (q : String), q ∉ akeys pool →
      akeys (ConnectionEndpointClose pool (some q)) = akeys pool ++ [q]) := by
  constructor
  · intro ops
    induction ops with
    | nil => intro pool _; rfl
    | cons op ops ih =>
      intro pool h
      cases op with
      | alloc =>
        have hk := akeys_requestAllocStep pool
        have hh : ∀ p : String, PoolOp.close (some p) ∈ ops →
            p ∈ akeys (requestAllocStep pool) := by
          intro p hp
          rw [hk]
          exact h p (List.mem_cons_of_mem _ hp)
        simp only [runPoolOps]
        rw [ih (requestAllocStep pool) hh, hk]
      | close oc =>
        cases oc with
        | none =>
          simp only [runPoolOps, ConnectionEndpointClose]
          exact ih pool (fun p hp => h p (List.mem_cons_of_mem _ hp))
        | some q =>
          have hq : q ∈ akeys pool := h q (List.mem_cons_self _ _)
          have hk := akeys_ainsert_mem pool q false hq
          have hh : ∀ p : String, PoolOp.close (some p) ∈ ops →
              p ∈ akeys (ainsert pool q false) := by
            intro p hp
            rw [hk]
            exact h p (List.mem_cons_of_mem _ hp)
          simp only [runPoolOps, ConnectionEndpointClose]
          rw [ih (ainsert pool q false) hh, hk]
  · intro pool q h
    exact akeys_ainsert_not_mem pool q false h

/-- C5 counterexample: a pool configured with one device, closed with an
identifier outside the configured set: the pool's key set grows to include
the released identifier, instead of staying unchanged as the claim states. -/
theorem c5_counterexample :
    akeys (NewConnectionEndpointPool "0000:01:00.1") = ["0000:01:00.1"]
    ∧ akeys (ConnectionEndpointClose (NewConnectionEndpointPool "0000:01:00.1")
        (some "0000:01:00.9")) = ["0000:01:00.1", "0000:01:00.9"] := ⟨rfl, rfl⟩

/-- C5 witness: an allocation followed by a Close of the configured device
preserves the key set of the configured pool. -/
theorem c5_pool_keys_amended_witness :
    akeys (runPoolOps [PoolOp.alloc, PoolOp.close (some "0000:01:00.1")]
      (NewConnectionEndpointPool "0000:01:00.1"))
      = akeys (NewConnectionEndpointPool "0000:01:00.1") := by
  refine c5_pool_keys_amended.1 _ _ ?_
  intro p hp
  simp at hp
  rw [hp]
  decide

/- ---------------------------------------------------------------------------
   Claim C6: teardown recovers state from the allocation record.
--------------------------------------------------------------------------- -/

/-- C6: local teardown recovers the source and destination devices from the
allocation record under the src- and dst- role keys (never from the request:
the recovered devices and port names are invariant under any change of the
request parameters), reconstructs the tapsrc/tapdst port names from the
connection identifier exactly when no device was recorded, hands the
recovered device to the release configuration, and on completion has removed
both record entries and nothing else; remote teardown does the same for the
rem- role key and the tap_ port name, with the tunnel name derived from the
remote peer IP. -/
theorem c6_teardown_recovery
    (g : String → Except String String) (m : List (String × String)) (connID : String)
    (srcConn dstConn : ConnParams) (ts : TunState) (localConn : ConnParams)
    (rp : RemoteParams) (dir : Direction) :
    (∀ r, r = deleteLocalConnection g m connID srcConn dstConn →
      r.srcDeviceID = (alookup m ("src-" ++ connID)).getD ""
      ∧ r.dstDeviceID = (alookup m ("dst-" ++ connID)).getD ""
      ∧ r.srcOvSPortName =
          (if r.srcDeviceID = "" then srcPortTag ++ connID else netRepOrEmpty g r.srcDeviceID)
      ∧ r.dstOvSPortName =
          (if r.dstDeviceID = "" then dstPortTag ++ connID else netRepOrEmpty g r.dstDeviceID)
      ∧ r.srcConfig.pciAddress = r.srcDeviceID
      ∧ r.dstConfig.pciAddress = r.dstDeviceID
      ∧ alookup r.devIDMap ("src-" ++ connID) = none
      ∧ alookup r.devIDMap ("dst-" ++ connID) = none
      ∧ (∀ k, k ≠ "src-" ++ connID → k ≠ "dst-" ++ connID →
          alookup r.devIDMap k = alookup m k)
      ∧ (∀ srcConn2 dstConn2,
          (deleteLocalConnection g m connID srcConn2 dstConn2).srcDeviceID = r.srcDeviceID
          ∧ (deleteLocalConnection g m connID srcConn2 dstConn2).dstDeviceID = r.dstDeviceID
          ∧ (deleteLocalConnection g m connID srcConn2 dstConn2).srcOvSPortName
              = r.srcOvSPortName
          ∧ (deleteLocalConnection g m connID srcConn2 dstConn2).dstOvSPortName
              = r.dstOvSPortName))
    ∧ (∀ out, deleteRemoteConnection g ts m connID localConn rp dir = Except.ok out →
        out.deviceID = (alookup m ("rem-" ++ connID)).getD ""
        ∧ out.ovsPortName =
            (if out.deviceID = "" then "tap_" ++ connID else netRepOrEmpty g out.deviceID)
        ∧ out.config.pciAddress = out.deviceID
        ∧ out.tunnelName =
            ovsTunnelNameOf (if dir = Direction.incoming then rp.srcIP else rp.dstIP)
        ∧ alookup out.devIDMap ("rem-" ++ connID) = none
        ∧ (∀ k, k ≠ "rem-" ++ connID → alookup out.devIDMap k = alookup m k)
        ∧ (∀ localConn2 out2,
            deleteRemoteConnection g ts m connID localConn2 rp dir = Except.ok out2 →
            out2.deviceID = out.deviceID ∧ out2.ovsPortName = out.ovsPortName)) := by
  constructor
  · intro r hr
    subst hr
    refine ⟨rfl, rfl, ?_, ?_, rfl, rfl, ?_, ?_, ?_, fun _ _ => ⟨rfl, rfl, rfl, rfl⟩⟩
    · cases hl : alookup m ("src-" ++ connID) with
      | none => simp [deleteLocalConnection, hl]
      | some d =>
        by_cases hd : d = ""
        · simp [deleteLocalConnection, hl, hd]
        · simp [deleteLocalConnection, hl, hd]
    · cases hl : alookup m ("dst-" ++ connID) with
      | none => simp [deleteLocalConnection, hl]
      | some d =>
        by_cases hd : d = ""
        · simp [deleteLocalConnection, hl, hd]
        · simp [deleteLocalConnection, hl, hd]
    · show alookup (aerase (aerase m ("src-" ++ connID)) ("dst-" ++ connID))
        ("src-" ++ connID) = none
      by_cases hE : ("dst-" ++ connID) = ("src-" ++ connID)
      · rw [hE]
        exact alookup_aerase_self _ _
      · rw [alookup_aerase_ne _ _ _ hE]
        exact alookup_aerase_self _ _
    · exact alookup_aerase_self _ _
    · intro k h1 h2
      show alookup (aerase (aerase m ("src-" ++ connID)) ("dst-" ++ connID)) k = alookup m k
      rw [alookup_aerase_ne _ _ _ (Ne.symm h2), alookup_aerase_ne _ _ _ (Ne.symm h1)]
  · intro out hout
    by_cases hm : rp.mechType = vxlanMECHANISM
    · simp only [deleteRemoteConnection, GetTunnelParameters, if_pos hm] at hout
      cases hout
      refine ⟨rfl, ?_, rfl, ?_, ?_, ?_, ?_⟩
      · cases hl : alookup m ("rem-" ++ connID) with
        | none => simp [hl]
        | some d =>
          by_cases hd : d = ""
          · simp [hl, hd]
          · simp [hl, hd]
      · cases dir <;> simp [getVXLANParameters]
      · exact alookup_aerase_self _ _
      · intro k hk
        exact alookup_aerase_ne _ _ _ (Ne.symm hk)
      · intro localConn2 out2 hout2
        simp only [deleteRemoteConnection, GetTunnelParameters, if_pos hm] at hout2
        cases hout2
        exact ⟨rfl, rfl⟩
    · simp only [deleteRemoteConnection, GetTunnelParameters, if_neg hm] at hout
      simp at hout

/-- C6 witness: teardown of connection conn1 over the sample record table:
the source device comes from the record, the destination side reconstructs
the tapdst port name, both conn1 entries are removed and the unrelated
rem-conn2 entry survives. -/
theorem c6_teardown_recovery_witness :
    (deleteLocalConnection netRepOracle0 devIDMap0 "conn1" connParams0 connParams1).srcDeviceID
      = "0000:01:00.1"
    ∧ (deleteLocalConnection netRepOracle0 devIDMap0 "conn1" connParams0
        connParams1).srcOvSPortName = "rep1"
    ∧ (deleteLocalConnection netRepOracle0 devIDMap0 "conn1" connParams0
        connParams1).dstOvSPortName = "tapdstconn1"
    ∧ alookup (deleteLocalConnection netRepOracle0 devIDMap0 "conn1" connParams0
        connParams1).devIDMap ("src-" ++ "conn1") = none
    ∧ alookup (deleteLocalConnection netRepOracle0 devIDMap0 "conn1" connParams0
        connParams1).devIDMap "rem-conn2" = some "0000:01:00.2" := by
  have h := (c6_teardown_recovery netRepOracle0 devIDMap0 "conn1" connParams0 connParams1
    tunState0 connParams0 remoteParams0 Direction.incoming).1 _ rfl
  refine ⟨h.1.trans rfl, (h.2.2.1).trans rfl, (h.2.2.2.1).trans rfl,
    h.2.2.2.2.2.2.1, ?_⟩
  exact (h.2.2.2.2.2.2.2.2.1 "rem-conn2" (by decide) (by decide)).trans rfl

/- ---------------------------------------------------------------------------
   Claim C7: VF Attach/Detach name round trip.
--------------------------------------------------------------------------- -/

theorem alookup_aupdate (links : List (String × VfLinkSt)) (key : String)
    (f : VfLinkSt → VfLinkSt) :
    ∀ l, alookup links key = some l → alookup (aupdate links key f) key = some (f l) := by
  induction links with
  | nil => intro l h; simp [alookup] at h
  | cons p m ih =>
    intro l h
    by_cases hp : p.1 = key
    · simp only [alookup, if_pos hp, Option.some.injEq] at h
      simp [aupdate, alookup, hp, h]
    · simp only [alookup, if_neg hp] at h
      simp [aupdate, alookup, hp]
      have := ih l h
      simpa [aupdate] using this

theorem alookup_setLink {links : List (String × VfLinkSt)} {key : String} {x : VfLinkSt}
    (h : alookup links key = some x) (v : VfLinkSt) :
    alookup (setLink links key v) key = some v := by
  have := alookup_aupdate links key (fun _ => v) x h
  simpa [setLink] using this

/-- C7: Attach (SetupVF) of a device whose link sits in the host namespace
records the link's pre-Attach name in VfNameMap; once the link is back in the
host namespace, Detach (ResetVF) for the same device succeeds, restores the
link's name to the recorded pre-Attach value and deletes the registry entry,
so after the pair the link name equals its value before Attach and the
registry holds no entry for the device. -/
theorem c7_attach_detach_roundtrip
    (parseAddr : String → Option String) (w : SriovWorld) (cfg : VFInterfaceConfiguration)
    (hostNs : String) (l : VfLinkSt) (a : String)
    (hl : alookup w.links cfg.pciAddress = some l)
    (hns : l.ns = hostNs)
    (hname : l.name ≠ "")
    (htgt : cfg.targetNetns ∈ w.namespaces)
    (hip : parseAddr cfg.ipAddress = some a) :
    (SetupVF parseAddr w cfg hostNs).2 = none
    ∧ alookup (SetupVF parseAddr w cfg hostNs).1.vfNameMap cfg.pciAddress = some l.name
    ∧ (ResetVF (returnVFToHost (SetupVF parseAddr w cfg hostNs).1 cfg.pciAddress hostNs)
        cfg hostNs).2 = none
    ∧ (alookup (ResetVF (returnVFToHost (SetupVF parseAddr w cfg hostNs).1 cfg.pciAddress
        hostNs) cfg hostNs).1.links cfg.pciAddress).map VfLinkSt.name = some l.name
    ∧ alookup (ResetVF (returnVFToHost (SetupVF parseAddr w cfg hostNs).1 cfg.pciAddress
        hostNs) cfg hostNs).1.vfNameMap cfg.pciAddress = none := by
  have hget : GetLink w cfg.pciAddress cfg.name [hostNs, cfg.targetNetns]
      = some cfg.pciAddress := by
    simp [GetLink, searchByPCI, hl, hns]
  have hadd : ∀ l1 : VfLinkSt, ∃ l2 : VfLinkSt,
      vfAddAddress parseAddr l1 cfg.ipAddress = Except.ok l2 := by
    intro l1
    by_cases hmem : a ∈ l1.addrs
    · exact ⟨l1, by simp only [vfAddAddress, hip, if_pos hmem]⟩
    · exact ⟨{ l1 with addrs := l1.addrs ++ [a] },
        by simp only [vfAddAddress, hip, if_neg hmem]⟩
  have hstep : ∃ l3 : VfLinkSt, l3.name = cfg.name ∧
      SetupVF parseAddr w cfg hostNs =
        ({ w with vfNameMap := ainsert w.vfNameMap cfg.pciAddress l.name
                  links := setLink w.links cfg.pciAddress l3 }, none) := by
    obtain ⟨l2, hl2⟩ := hadd (if l.ns = cfg.targetNetns then l
      else { l with up := false, ns := cfg.targetNetns })
    unfold SetupVF
    simp only [htgt, if_true, hget, hl, if_neg hname, hl2]
    exact ⟨_, rfl, rfl⟩
  obtain ⟨l3, hl3name, hset⟩ := hstep
  have hlk1 : alookup (setLink w.links cfg.pciAddress l3) cfg.pciAddress = some l3 :=
    alookup_setLink hl l3
  have hlk2 : alookup (returnVFToHost (SetupVF parseAddr w cfg hostNs).1 cfg.pciAddress
      hostNs).links cfg.pciAddress = some { l3 with ns := hostNs } := by
    rw [hset]
    exact alookup_aupdate _ cfg.pciAddress (fun l4 => { l4 with ns := hostNs }) l3 hlk1
  have hget2 : GetLink (returnVFToHost (SetupVF parseAddr w cfg hostNs).1 cfg.pciAddress
      hostNs) cfg.pciAddress cfg.name [hostNs] = some cfg.pciAddress := by
    simp [GetLink, searchByPCI, hlk2]
  have hmap : alookup (returnVFToHost (SetupVF parseAddr w cfg hostNs).1 cfg.pciAddress
      hostNs).vfNameMap cfg.pciAddress = some l.name := by
    rw [hset]
    exact alookup_ainsert_self _ _ _
  refine ⟨by rw [hset], by rw [hset]; exact alookup_ainsert_self _ _ _, ?_, ?_, ?_⟩
  · simp only [ResetVF, hget2, hmap, hlk2]
  · simp only [ResetVF, hget2, hmap, hlk2]
    rw [alookup_setLink hlk2]
    rfl
  · simp only [ResetVF, hget2, hmap, hlk2]
    exact alookup_aerase_self _ _

/-- C7 witness: the sample device attached into ns1 and detached after the
kernel returns it to the host namespace: its name and the registry are
restored. -/
theorem c7_attach_detach_roundtrip_witness :
    (SetupVF parseAddr0 world0 cfg0 "hostns").2 = none
    ∧ alookup (SetupVF parseAddr0 world0 cfg0 "hostns").1.vfNameMap "0000:01:00.2"
      = some "enp1s0f2"
    ∧ (alookup (ResetVF (returnVFToHost (SetupVF parseAddr0 world0 cfg0 "hostns").1
        "0000:01:00.2" "hostns") cfg0 "hostns").1.links "0000:01:00.2").map VfLinkSt.name
      = some "enp1s0f2"
    ∧ alookup (ResetVF (returnVFToHost (SetupVF parseAddr0 world0 cfg0 "hostns").1
        "0000:01:00.2" "hostns") cfg0 "hostns").1.vfNameMap "0000:01:00.2" = none := by
  have h := c7_attach_detach_roundtrip parseAddr0 world0 cfg0 "hostns" link0 "10.1.1.2/30"
    rfl rfl (by decide) (by decide) rfl
  exact ⟨h.1, h.2.1, h.2.2.2.1, h.2.2.2.2⟩

/- ---------------------------------------------------------------------------
   Claim C8: caller-visible Close result.
--------------------------------------------------------------------------- -/

/-- C8 (amended): OvSForwarder.Close reports success (a nil error) to the
caller for every cross-connect, unconditionally, including when the
mechanism-identification step fails; and whenever the internal disconnect
fails, including that ambiguous-mechanism case, no teardown step runs (the
remote handler returns before teardown), rather than the other steps still
proceeding. -/
theorem c8_close_swallows_errors (cc : XConnEnds) :
    (OvSForwarderClose cc).1 = none
    ∧ (∀ e, (connectOrDisconnectClose cc).1 = Except.error e →
        (OvSForwarderClose cc).2 = []) := by
  refine ⟨rfl, ?_⟩
  intro e he
  show (connectOrDisconnectClose cc).2 = []
  unfold connectOrDisconnectClose at he ⊢
  by_cases h1 : cc.srcMechType = kernelMECHANISM ∧ cc.dstMechType = kernelMECHANISM
  · rw [if_pos h1] at he
    exact absurd he (by simp [deleteLocalCloseFlow])
  · rw [if_neg h1] at he
    rw [if_neg h1]
    unfold handleRemoteConnectionClose at he ⊢
    by_cases h2 : cc.srcIsRemote = true ∧ cc.dstIsRemote = false
    · rw [if_pos h2] at he
      rw [if_pos h2]
      unfold deleteRemoteCloseFlow at he ⊢
      by_cases h3 : cc.srcMechType = vxlanMECHANISM
      · rw [if_pos h3] at he
        simp at he
      · rw [if_neg h3]
    · rw [if_neg h2] at he
      rw [if_neg h2]
      by_cases h4 : cc.srcIsRemote = false ∧ cc.dstIsRemote = true
      · rw [if_pos h4] at he
        rw [if_pos h4]
        unfold deleteRemoteCloseFlow at he ⊢
        by_cases h5 : cc.dstMechType = vxlanMECHANISM
        · rw [if_pos h5] at he
          simp at he
        · rw [if_neg h5]
      · rw [if_neg h4]

/-- C8 counterexample: on the cross-connect whose remote side carries an
unknown mechanism, the inner disconnect fails on identifying the mechanism,
yet Close reports success to the caller (no error is surfaced) and no other
teardown step proceeds, refuting the claim's exception clause. -/
theorem c8_counterexample :
    (connectOrDisconnectClose ccUnknownMech).1
      = Except.error ("unknown remote mechanism - " ++ "MEMIF")
    ∧ (OvSForwarderClose ccUnknownMech).1 = none
    ∧ (OvSForwarderClose ccUnknownMech).2 = [] := ⟨rfl, rfl, rfl⟩

/-- C8 witness: the amended behavior at the unknown-mechanism cross-connect:
Close reports success and the teardown step list is empty. -/
theorem c8_close_swallows_errors_witness :
    (OvSForwarderClose ccUnknownMech).1 = none
    ∧ (OvSForwarderClose ccUnknownMech).2 = [] := by
  have h := c8_close_swallows_errors ccUnknownMech
  exact ⟨h.1, h.2 ("unknown remote mechanism - " ++ "MEMIF") rfl⟩

/- ---------------------------------------------------------------------------
   Claim C9: bounded port-id retries.
--------------------------------------------------------------------------- -/

theorem getOfPortLoop_congr (o o2 : Nat → Except String String) :
    ∀ (c i : Nat) (p : Int), (∀ j, i ≤ j → j < i + c → o j = o2 j) →
      getOfPortLoop o c i p = getOfPortLoop o2 c i p := by
  intro c
  induction c with
  | zero => intro i p _; rfl
  | succ c ih =>
    intro i p h
    have hi : o i = o2 i := h i (le_refl i) (by omega)
    simp only [getOfPortLoop]
    rw [← hi]
    cases ho : o i with
    | error e => simp [ho]
    | ok out =>
      simp only [ho]
      by_cases hz : atoiGo out = 0
      · rw [if_pos hz, if_pos hz]
        exact ih (i + 1) (atoiGo out) (fun j h1 h2 => h j (by omega) (by omega))
      · rw [if_neg hz, if_neg hz]

theorem getOfPortLoop_all_zero (o : Nat → Except String String) :
    ∀ (c i : Nat) (p : Int),
      (∀ j, i ≤ j → j < i + (c + 1) → ∃ s, o j = Except.ok s ∧ atoiGo s = 0) →
      getOfPortLoop o (c + 1) i p = (0, none) := by
  intro c
  induction c with
  | zero =>
    intro i p h
    obtain ⟨s, hs, hz⟩ := h i (le_refl i) (by omega)
    simp [getOfPortLoop, hs, hz]
  | succ c ih =>
    intro i p h
    obtain ⟨s, hs, hz⟩ := h i (le_refl i) (by omega)
    simp only [getOfPortLoop, hs, hz, if_pos]
    have := ih (i + 1) (atoiGo s) (fun j h1 h2 => h j (by omega) (by omega))
    simpa [hz] using this

theorem getOfPortLoop_err (o : Nat → Except String String) (e : String) :
    ∀ (k c i : Nat) (p : Int), k < c →
      (∀ j, i ≤ j → j < i + k → ∃ s, o j = Except.ok s ∧ atoiGo s = 0) →
      o (i + k) = Except.error e →
      getOfPortLoop o c i p = (-1, some e) := by
  intro k
  induction k with
  | zero =>
    intro c i p hk hpre herr
    obtain ⟨c2, rfl⟩ : ∃ c2, c = c2 + 1 := ⟨c - 1, by omega⟩
    have herr2 : o i = Except.error e := herr
    simp [getOfPortLoop, herr2]
  | succ k ih =>
    intro c i p hk hpre herr
    obtain ⟨c2, rfl⟩ : ∃ c2, c = c2 + 1 := ⟨c - 1, by omega⟩
    obtain ⟨s, hs, hz⟩ := hpre i (le_refl i) (by omega)
    simp only [getOfPortLoop, hs, hz, if_pos]
    have herr2 : o (i + 1 + k) = Except.error e := by
      have harr : i + 1 + k = i + (k + 1) := by omega
      rw [harr]
      exact herr
    have := ih c2 (i + 1) (atoiGo s) (by omega)
      (fun j h1 h2 => hpre j (by omega) (by omega)) herr2
    simpa [hz] using this

theorem getOfPortLoop_break (o : Nat → Except String String) (s : String) :
    ∀ (k c i : Nat) (p : Int), k < c →
      (∀ j, i ≤ j → j < i + k → ∃ s2, o j = Except.ok s2 ∧ atoiGo s2 = 0) →
      o (i + k) = Except.ok s → atoiGo s ≠ 0 →
      getOfPortLoop o c i p = (atoiGo s, none) := by
  intro k
  induction k with
  | zero =>
    intro c i p hk hpre hok hnz
    obtain ⟨c2, rfl⟩ : ∃ c2, c = c2 + 1 := ⟨c - 1, by omega⟩
    have hok2 : o i = Except.ok s := hok
    simp [getOfPortLoop, hok2, hnz]
  | succ k ih =>
    intro c i p hk hpre hok hnz
    obtain ⟨c2, rfl⟩ : ∃ c2, c = c2 + 1 := ⟨c - 1, by omega⟩
    obtain ⟨s2, hs2, hz2⟩ := hpre i (le_refl i) (by omega)
    simp only [getOfPortLoop, hs2, hz2, if_pos]
    have hok2 : o (i + 1 + k) = Except.ok s := by
      have harr : i + 1 + k = i + (k + 1) := by omega
      rw [harr]
      exact hok
    have := ih c2 (i + 1) (atoiGo s2) (by omega)
      (fun j h1 h2 => hpre j (by omega) (by omega)) hok2 hnz
    simpa [hz2] using this

/-- C9 (amended): GetInterfaceOfPort consults the switch a bounded number of
times (its result depends only on the first five answers, with a fixed delay
between attempts abstracted away); a failing switch query is returned as an
error; a non-zero id ends the retries and is returned; but when the id is
still 0 after the last retry, the function returns 0 with a nil error (a
success value handed to the caller), not an error. -/
theorem c9_portid_retry_amended :
    (∀ o o2 : Nat → Except String String, (∀ i, i < 5 → o i = o2 i) →
      GetInterfaceOfPort o = GetInterfaceOfPort o2)
    ∧ (∀ o : Nat → Except String String,
        (∀ i, i < 5 → ∃ s, o i = Except.ok s ∧ atoiGo s = 0) →
        GetInterfaceOfPort o = (0, none))
    ∧ (∀ (o : Nat → Except String String) (k : Nat) (e : String), k < 5 →
        (∀ j, j < k → ∃ s, o j = Except.ok s ∧ atoiGo s = 0) →
        o k = Except.error e →
        GetInterfaceOfPort o = (-1, some e))
    ∧ (∀ (o : Nat → Except String String) (k : Nat) (s : String), k < 5 →
        (∀ j, j < k → ∃ s2, o j = Except.ok s2 ∧ atoiGo s2 = 0) →
        o k = Except.ok s → atoiGo s ≠ 0 →
        GetInterfaceOfPort o = (atoiGo s, none)) := by
  refine ⟨?_, ?_, ?_, ?_⟩
  · intro o o2 h
    exact getOfPortLoop_congr o o2 5 0 0 (fun j _ hj => h j (by omega))
  · intro o h
    exact getOfPortLoop_all_zero o 4 0 0 (fun j _ hj => h j (by omega))
  · intro o k e hk hpre herr
    have herr0 : o (0 + k) = Except.error e := by rw [Nat.zero_add]; exact herr
    exact getOfPortLoop_err o e k 5 0 0 hk (fun j _ hj => hpre j (by omega)) herr0
  · intro o k s hk hpre hok hnz
    have hok0 : o (0 + k) = Except.ok s := by rw [Nat.zero_add]; exact hok
    exact getOfPortLoop_break o s k 5 0 0 hk (fun j _ hj => hpre j (by omega)) hok0 hnz

/-- C9 counterexample: a switch that reports id 0 on every attempt: after the
last retry GetInterfaceOfPort returns port 0 with a nil error, a success
value, instead of escalating an error as the claim states. -/
theorem c9_counterexample :
    GetInterfaceOfPort zeroPortOracle = (0, none)
    ∧ (GetInterfaceOfPort zeroPortOracle).2 = none := ⟨rfl, rfl⟩

/-- C9 witness: the amended behavior at two concrete oracles: persistent 0
yields the (0, nil-error) success value, and an id visible on the first
attempt is returned without retrying. -/
theorem c9_portid_retry_amended_witness :
    GetInterfaceOfPort zeroPortOracle = (0, none)
    ∧ GetInterfaceOfPort (fun _ => Except.ok "17") = (17, none) := by
  have h := c9_portid_retry_amended
  refine ⟨h.2.1 zeroPortOracle ?_, ?_⟩
  · intro i _
    exact ⟨"0", rfl, rfl⟩
  · have hb := h.2.2.2 (fun _ => Except.ok "17") 0 "17" (by omega)
      (fun j hj => absurd hj (by omega)) rfl (by decide)
    exact hb.trans (by decide)

/- ---------------------------------------------------------------------------
   Claim C10: AddAddress idempotence.
--------------------------------------------------------------------------- -/

/-- C10: vfLink.AddAddress is idempotent: when the parsed address is already
in the link's address list it returns success with the link unchanged, and
for every link and address, running AddAddress twice in sequence equals
running it once. -/
theorem c10_addaddress_idempotent :
    (∀ (parseAddr : String → Option String) (link : VfLinkSt) (ip a : String),
      parseAddr ip = some a → a ∈ link.addrs →
      vfAddAddress parseAddr link ip = Except.ok link)
    ∧ (∀ (parseAddr : String → Option String) (link : VfLinkSt) (ip : String),
      Except.bind (vfAddAddress parseAddr link ip) (fun l => vfAddAddress parseAddr l ip)
        = vfAddAddress parseAddr link ip) := by
  constructor
  · intro parseAddr link ip a hp hmem
    simp [vfAddAddress, hp, hmem]
  · intro parseAddr link ip
    cases hp : parseAddr ip with
    | none => simp [vfAddAddress, hp, Except.bind]
    | some a =>
      by_cases hmem : a ∈ link.addrs
      · simp [vfAddAddress, hp, hmem, Except.bind]
      · simp [vfAddAddress, hp, hmem, Except.bind]

/-- C10 witness: adding an address already present returns the link
unchanged, and a double add equals a single add. -/
theorem c10_addaddress_idempotent_witness :
    vfAddAddress parseAddr0
        { name := "nsm1", addrs := ["10.1.1.2/30"], up := true, ns := "ns1" } "10.1.1.2/30"
      = Except.ok { name := "nsm1", addrs := ["10.1.1.2/30"], up := true, ns := "ns1" }
    ∧ Except.bind (vfAddAddress parseAddr0 link0 "10.1.1.1/30")
        (fun l => vfAddAddress parseAddr0 l "10.1.1.1/30")
      = vfAddAddress parseAddr0 link0 "10.1.1.1/30" :=
  ⟨c10_addaddress_idempotent.1 parseAddr0
      { name := "nsm1", addrs := ["10.1.1.2/30"], up := true, ns := "ns1" }
      "10.1.1.2/30" "10.1.1.2/30" (by decide) (by decide),
    c10_addaddress_idempotent.2 parseAddr0 link0 "10.1.1.1/30"⟩

end NsmOvs
